import Mathlib

/-!
Verification of the request-dispatch and resilient remote-call core of the
oracle-aidp-mcp-server repository.  The Python source is shallowly embedded:
pure functions become Lean functions, exception raising becomes `Except`,
JSON dictionaries become small inductive values, and the tenacity retry loop
of `OCIClient.call_api` becomes an explicit fuel-indexed recursion that also
records the number of attempts made and the back-off waits.
-/

deriving instance DecidableEq for Except

namespace AIDP

/-- A small JSON value model, enough for the argument maps and handler
results the dispatcher core manipulates (`utils/validators.py` only ever
distinguishes absence, `None`, and other values). -/
inductive JVal
  | null
  | bool (b : Bool)
  | str (s : String)
  | num (q : ℚ)
  deriving DecidableEq, Repr

/-- A value stored in an error `details` map (`utils/errors.py` passes
strings, integers and string lists). -/
inductive DV
  | s (v : String)
  | i (v : Int)
  | list (v : List String)
  deriving DecidableEq, Repr

/-- The closed error taxonomy of `utils/errors.py`: one constructor per
`AIDPError` subclass. -/
inductive ErrKind
  | Authentication
  | Authorization
  | ResourceNotFound
  | ResourceAlreadyExists
  | Validation
  | API
  | Configuration
  | Timeout
  | RateLimit
  | Network
  | InvalidState
  | QuotaExceeded
  deriving DecidableEq, Repr

/-- The Python class name of a taxonomy error
(`error.__class__.__name__` in `utils/formatters.py`). -/
def ErrKind.className : ErrKind → String
  | .Authentication => "AuthenticationError"
  | .Authorization => "AuthorizationError"
  | .ResourceNotFound => "ResourceNotFoundError"
  | .ResourceAlreadyExists => "ResourceAlreadyExistsError"
  | .Validation => "ValidationError"
  | .API => "APIError"
  | .Configuration => "ConfigurationError"
  | .Timeout => "TimeoutError"
  | .RateLimit => "RateLimitError"
  | .Network => "NetworkError"
  | .InvalidState => "InvalidStateError"
  | .QuotaExceeded => "QuotaExceededError"

/-- The backend (OCI SDK) exceptions `call_api` catches in
`src/oci_client.py`: `oci.exceptions.ServiceError` (with status, code,
message), `oci.exceptions.ConnectTimeout`, any other
`oci.exceptions.RequestException`, and any other `Exception`. -/
inductive OCIException
  | serviceError (status : Int) (code : String) (message : String)
  | connectTimeout (msg : String)
  | requestException (msg : String)
  | other (msg : String)
  deriving DecidableEq, Repr

/-- `str(e)` of a backend exception, as it would appear in logs and in the
`original_error` field of an error envelope. -/
def OCIException.toStr : OCIException → String
  | .serviceError _ _ message => message
  | .connectTimeout msg => msg
  | .requestException msg => msg
  | .other msg => msg

/-- A taxonomy error value: `AIDPError(message, details, original_error)`
from `utils/errors.py`, tagged with which subclass it is. -/
structure AIDPError where
  kind : ErrKind
  message : String
  details : List (String × DV)
  original : Option OCIException
  deriving DecidableEq, Repr

/-- The classification branches of `OCIClient.call_api`
(`src/oci_client.py` lines 218-279): service errors are mapped by status
(401 → AuthenticationError, 404 → ResourceNotFoundError,
429 → RateLimitError, ≥ 500 → APIError, anything else → APIError),
`ConnectTimeout` → TimeoutError, other `RequestException` → NetworkError,
any other exception → APIError; every branch preserves the caught
exception as `original_error`. -/
def classify (e : OCIException) : AIDPError :=
  match e with
  | .serviceError status code message =>
    if status = 401 then
      { kind := .Authentication, message := "Authentication failed",
        details := [("code", .s code), ("message", .s message)], original := some e }
    else if status = 404 then
      { kind := .ResourceNotFound, message := message,
        details := [("code", .s code)], original := some e }
    else if status = 429 then
      { kind := .RateLimit, message := "API rate limit exceeded",
        details := [("code", .s code), ("message", .s message)], original := some e }
    else if status ≥ 500 then
      { kind := .API, message := "OCI service error: " ++ message,
        details := [("code", .s code), ("status", .i status)], original := some e }
    else
      { kind := .API, message := message,
        details := [("code", .s code), ("status", .i status)], original := some e }
  | .connectTimeout _ =>
    { kind := .Timeout, message := "Connection to OCI timed out",
      details := [], original := some e }
  | .requestException _ =>
    { kind := .Network, message := "Network error while communicating with OCI",
      details := [], original := some e }
  | .other msg =>
    { kind := .API, message := "Unexpected error: " ++ msg,
      details := [], original := some e }

/-- The retry predicate of the tenacity decorator on `call_api`:
`retry_if_exception_type((NetworkError, TimeoutError))`. -/
def retryable : ErrKind → Bool
  | .Network => true
  | .Timeout => true
  | _ => false

/-- tenacity `wait_exponential(multiplier, min, max)` evaluated at a 1-based
attempt number: `max(max(0, min), min(multiplier * 2^attempt_number, max))`. -/
def waitExponential (multiplier minW maxW : ℚ) (attemptNumber : ℕ) : ℚ :=
  max (max 0 minW) (min (multiplier * 2 ^ attemptNumber) maxW)

/-- One `call_api` attempt body: invoke the backend, on success return the
raw response, on failure raise the classified taxonomy error.  `backend n`
is the outcome of the (n+1)-th invocation of the wrapped operation. -/
def callAttempt {α : Type} (backend : ℕ → Except OCIException α) (made : ℕ) :
    Except AIDPError α :=
  match backend made with
  | .ok v => .ok v
  | .error e => .error (classify e)

/-- The tenacity retry loop around the attempt body.  `made` counts attempts
already made, `fuel` the attempts still allowed
(`stop_after_attempt` ⇒ initial fuel = 3).  A failed attempt is retried
exactly when its classified kind is retryable and fuel remains; before the
retry the loop sleeps `wait_exponential` evaluated at the 1-based number of
the attempt that just failed.  Returns the outcome, the number of attempts
made, and the list of inter-attempt waits in order. -/
def callApiGo {α : Type} (backend : ℕ → Except OCIException α) :
    ℕ → ℕ → Except AIDPError α × ℕ × List ℚ
  | _, 0 => (.error (classify (.other "no attempts allowed")), 0, [])
  | made, 1 => (callAttempt backend made, 1, [])
  | made, fuel + 2 =>
    match callAttempt backend made with
    | .ok v => (.ok v, 1, [])
    | .error err =>
      if retryable err.kind then
        let rest := callApiGo backend (made + 1) (fuel + 1)
        (rest.1, rest.2.1 + 1, waitExponential 1 2 10 (made + 1) :: rest.2.2)
      else
        (.error err, 1, [])

/-- `OCIClient.call_api` under its decorator
`retry(stop=stop_after_attempt(3), wait=wait_exponential(multiplier=1, min=2, max=10),
retry=retry_if_exception_type((NetworkError, TimeoutError)), reraise=True)`. -/
def call_api {α : Type} (backend : ℕ → Except OCIException α) :
    Except AIDPError α × ℕ × List ℚ :=
  callApiGo backend 0 3

/-! ## Argument validators (`utils/validators.py`) -/

/-- An argument mapping: a Python dict of tool-call arguments, keys unique. -/
abbrev Args : Type := List (String × JVal)

/-- `data[field]` lookup (first binding wins, as dict keys are unique). -/
def lookupArg (data : Args) (field : String) : Option JVal :=
  (List.lookup field data : Option JVal)

/-- `field in data and data[field] is not None`. -/
def fieldPresent (data : Args) (field : String) : Bool :=
  match lookupArg data field with
  | some v => v ≠ JVal.null
  | none => false

/-- The list comprehension of `validate_required_fields`:
`[field for field in required_fields if field not in data or data[field] is None]`. -/
def missingFields (data : Args) (required : List String) : List String :=
  required.filter (fun field => ! fieldPresent data field)

/-- `validate_required_fields(data, required_fields)`
(`utils/validators.py` lines 225-242): collect every absent-or-None field,
and raise one `ValidationError` listing them all if any. -/
def validate_required_fields (data : Args) (required : List String) :
    Except AIDPError Unit :=
  let missing := missingFields data required
  if missing = [] then .ok ()
  else .error { kind := .Validation, message := "Missing required fields",
                details := [("missing_fields", .list missing)], original := none }

/-- `List Char` prefix test, the meaning of Python's `str.startswith`
(spelled out recursively so that concrete instances evaluate). -/
def charsPrefix : List Char → List Char → Bool
  | [], _ => true
  | _ :: _, [] => false
  | p :: ps, c :: cs => p = c && charsPrefix ps cs

/-- Python `s.startswith(p)`. -/
def pyStartsWith (s p : String) : Bool := charsPrefix p.data s.data

/-- Python `s.startswith(".")`. -/
def startsWithPeriod (s : String) : Bool :=
  match s.data with
  | [] => false
  | c :: _ => c = '.'

/-- Python `s.endswith(".")`. -/
def endsWithPeriod (s : String) : Bool :=
  match s.data.getLast? with
  | some c => c = '.'
  | none => false

/-- Characters admitted by the bucket-name regex `^[a-zA-Z0-9._-]+$`. -/
def bucketChar (c : Char) : Bool :=
  ('a' ≤ c && c ≤ 'z') || ('A' ≤ c && c ≤ 'Z') || ('0' ≤ c && c ≤ '9')
    || c = '.' || c = '_' || c = '-'

/-- Python's `".." in s` for the two-period pattern: some two consecutive
characters of `s` are both periods. -/
def hasConsecutivePeriods : List Char → Bool
  | [] => false
  | [_] => false
  | a :: b :: rest => (a = '.' && b = '.') || hasConsecutivePeriods (b :: rest)

/-- `validate_bucket_name(bucket_name)` (`utils/validators.py` lines 44-82):
checks, in order: non-empty; length ≤ 256; does not start or end with a
period; no consecutive periods; matches `^[a-zA-Z0-9._-]+$`.  Each failure
raises `ValidationError` with exactly the message and details the source
passes. -/
def validate_bucket_name (bucket_name : String) : Except AIDPError Unit :=
  if bucket_name = "" then
    .error { kind := .Validation, message := "Bucket name cannot be empty",
             details := [], original := none }
  else if bucket_name.length > 256 then
    .error { kind := .Validation, message := "Bucket name too long (max 256 characters)",
             details := [("length", .i bucket_name.length)], original := none }
  else if startsWithPeriod bucket_name || endsWithPeriod bucket_name then
    .error { kind := .Validation,
             message := "Bucket name cannot start or end with a period",
             details := [], original := none }
  else if hasConsecutivePeriods bucket_name.data then
    .error { kind := .Validation,
             message := "Bucket name cannot contain consecutive periods",
             details := [], original := none }
  else if ! bucket_name.data.all bucketChar then
    .error { kind := .Validation, message := "Bucket name contains invalid characters",
             details := [("bucket_name", .s bucket_name),
                         ("allowed_characters", .s "alphanumeric, hyphen, underscore, period")],
             original := none }
  else .ok ()

/-! ## Response envelope builders (`utils/formatters.py`) -/

/-- `round(x, 2)`: round to two decimal places.  (Python floats round ties
to even; the envelope claims proved here do not depend on tie direction.) -/
def round2 (q : ℚ) : ℚ := (round (q * 100) : ℤ) / 100

/-- The `error` object of an error envelope.  `traceback` only ever appears
in the dispatcher's hand-built unexpected-error envelope (`src/server.py`),
never in `format_error_response`. -/
structure ErrData where
  type : String
  message : String
  details : Option (List (String × DV))
  original_error : Option String
  traceback : Option (Option String)
  deriving DecidableEq, Repr

/-- The `metadata` object of an envelope.  Every field the source sets
conditionally is an `Option`. -/
structure Metadata where
  timestamp : Option String
  request_id : Option String
  execution_time_ms : Option ℚ
  deriving DecidableEq, Repr

/-- The uniform response envelope. -/
structure Envelope where
  success : Bool
  data : Option JVal
  error : Option ErrData
  metadata : Metadata
  deriving DecidableEq, Repr

/-- Python truthiness of the optional `request_id` argument
(`if request_id:` — `None` and the empty string are falsy). -/
def truthyStr : Option String → Option String
  | some s => if s = "" then none else some s
  | none => none

/-- An exception reaching `format_error_response`: either one of our
taxonomy errors, or any other Python exception, reduced to its class name
and `str(e)`. -/
inductive PyExc
  | aidp (e : AIDPError)
  | other (className : String) (msg : String)
  deriving DecidableEq, Repr

/-- `format_success_response(data, request_id, execution_time_ms)`
(`utils/formatters.py` lines 20-50).  `now` stands for the
`format_timestamp()` reading. -/
def format_success_response (data : JVal) (request_id : Option String)
    (execution_time_ms : Option ℚ) (now : String) : Envelope :=
  { success := true, data := some data, error := none,
    metadata := { timestamp := some now,
                  request_id := truthyStr request_id,
                  execution_time_ms := execution_time_ms.map round2 } }

/-- `format_error_response(error, request_id, include_traceback)`
(`utils/formatters.py` lines 53-92): `type` is the exception's class name
and `message` its `str`; `details` is attached only for a taxonomy error
with a non-empty details dict; `original_error` only for a taxonomy error
with a wrapped cause and `include_traceback=True`.  No
`execution_time_ms` is ever written. -/
def format_error_response (error : PyExc) (request_id : Option String)
    (include_traceback : Bool) (now : String) : Envelope :=
  let errorData : ErrData :=
    match error with
    | .aidp e =>
      { type := e.kind.className, message := e.message,
        details := if e.details ≠ [] then some e.details else none,
        original_error :=
          match e.original, include_traceback with
          | some orig, true => some orig.toStr
          | _, _ => none,
        traceback := none }
    | .other className msg =>
      { type := className, message := msg,
        details := none, original_error := none, traceback := none }
  { success := false, data := none, error := some errorData,
    metadata := { timestamp := some now,
                  request_id := truthyStr request_id,
                  execution_time_ms := none } }

/-! ## Dispatcher (`src/server.py`, `handle_call_tool`) -/

/-- The ten handler modules `handle_call_tool` can route to. -/
inductive ModuleKind
  | instanceMod | catalogMod | storageMod | computeMod | notebooksMod
  | jobsMod | pipelinesMod | connectionsMod | mlModelsMod | analyticsMod
  deriving DecidableEq, Repr

/-- The prefix-based routing chain of `handle_call_tool`
(`src/server.py` lines 178-228), with the exact prefix tuples of the
source, tried in source order. -/
def routeTool (name : String) : Option ModuleKind :=
  if ["get_instance", "list_workspaces", "create_workspace",
      "get_workspace", "update_workspace", "delete_workspace",
      "grant_workspace", "revoke_workspace"].any (pyStartsWith name) then
    some .instanceMod
  else if ["list_catalog", "search_catalog", "create_catalog",
      "update_catalog", "delete_catalog", "get_data_lineage",
      "list_databases", "get_database", "list_schemas",
      "list_tables", "get_table", "preview_table",
      "refresh_catalog", "set_object_tags", "get_object_tags",
      "export_catalog", "import_catalog", "validate_catalog"].any (pyStartsWith name) then
    some .catalogMod
  else if ["list_buckets", "create_bucket", "get_bucket",
      "update_bucket", "delete_bucket", "list_objects",
      "upload_object", "download_object", "get_object",
      "update_object", "delete_object", "copy_object",
      "move_object", "create_presigned", "list_object_versions",
      "restore_object", "set_object_lifecycle", "get_bucket_lifecycle",
      "bulk_upload", "bulk_download"].any (pyStartsWith name) then
    some .storageMod
  else if pyStartsWith name "compute_" then some .computeMod
  else if pyStartsWith name "notebooks_" then some .notebooksMod
  else if pyStartsWith name "jobs_" then some .jobsMod
  else if pyStartsWith name "pipelines_" then some .pipelinesMod
  else if pyStartsWith name "connections_" then some .connectionsMod
  else if pyStartsWith name "ml_models_" then some .mlModelsMod
  else if pyStartsWith name "analytics_" then some .analyticsMod
  else none

/-- What a tool call returns to the transport: on success the handler
result serialized as JSON text, on failure a serialized error envelope. -/
inductive CallToolResult
  | ok (result : JVal)
  | err (env : Envelope)
  deriving DecidableEq, Repr

/-- `handle_call_tool(name, arguments)` (`src/server.py` lines 157-281),
with the environment made explicit: `handlers` gives each module's
`handle_tool_call` outcome, `now` the timestamp a formatter would read,
`reqId` the request id assigned at entry, `execMs` the measured elapsed
milliseconds, `debug` whether the configured log level is DEBUG, and `tb`
the `traceback.format_exc()` text.  An unknown tool name raises
`ValueError(f"Unknown tool: {name}")`, which falls into the generic
`except Exception` branch and is reported as a hand-built envelope with
`type="UnexpectedError"` (note: a `ValueError` is not an `AIDPError`, so
the `except AIDPError` branch does not apply).  The second component
counts how many handler invocations were made. -/
def handle_call_tool (name : String) (args : Args)
    (handlers : ModuleKind → String → Args → Except AIDPError JVal)
    (now : String) (reqId : String) (execMs : ℚ) (debug : Bool) (tb : String) :
    CallToolResult × ℕ :=
  match routeTool name with
  | some m =>
    match handlers m name args with
    | .ok result => (.ok result, 1)
    | .error e =>
      (.err (format_error_response (.aidp e) (some reqId) debug now), 1)
  | none =>
    (.err { success := false, data := none,
            error := some { type := "UnexpectedError",
                            message := "Unknown tool: " ++ name,
                            details := none, original_error := none,
                            traceback := some (if debug then some tb else none) },
            metadata := { timestamp := none, request_id := some reqId,
                          execution_time_ms := some (round2 execMs) } },
     0)

/-- `request_id = f"req_\x7bint(start_time * 1000)\x7d"` with
`start_time = time.time()` (`src/server.py` lines 164-165): the wall-clock
reading in seconds, truncated to whole milliseconds.  The envelope string
is `"req_"` followed by the decimal rendering of this integer, so two
invocations get the same request id exactly when this integer agrees. -/
def requestIdMillis (start_time : ℚ) : ℤ := ⌊start_time * 1000⌋

/-- The rendered request id string. -/
def requestId (start_time : ℚ) : String :=
  "req_" ++ toString (requestIdMillis start_time)

/-! ## Storage module (`src/modules/storage.py`) -/

/-- The `get_bucket_details` branch of the storage module's
`handle_tool_call` (`src/modules/storage.py` lines 476-478): validate the
required `bucket_name` field, then perform the remote lookup.  `remote`
abstracts `get_bucket_details(oci_client, arguments["bucket_name"])`; the
second component counts how many remote calls were made. -/
def getBucketDetailsDispatch (args : Args)
    (remote : Args → Except AIDPError JVal) :
    Except AIDPError JVal × ℕ :=
  match validate_required_fields args ["bucket_name"] with
  | .error e => (.error e, 0)
  | .ok _ => (remote args, 1)

/-- `move_object` (`src/modules/storage.py` lines 1039-1063): await
`copy_object`, then await `delete_object`, then return a success envelope
whose data message is "Object moved successfully".  The two steps are
abstracted by their outcomes; an exception in a step propagates unchanged
(Python `raise` semantics), so a copy failure skips the delete.  The
second component records whether the delete step was attempted. -/
def move_object (copyStep : Except AIDPError Unit)
    (deleteStep : Except AIDPError Unit) :
    Except AIDPError String × Bool :=
  match copyStep with
  | .error e => (.error e, false)
  | .ok _ =>
    match deleteStep with
    | .error e => (.error e, true)
    | .ok _ => (.ok "Object moved successfully", true)

/-! ## Client registry (`src/oci_client.py`, lazy service properties)

Each service property reads `if self._client is None: construct`.  The
accessor contains no `await` and the server runs handlers on a single
asyncio event loop, so under the repository's cooperative task model each
accessor execution is one atomic step; concurrent first use is any
serialization of those atomic steps. -/

/-- The per-service cache cell: the stored handle (identified by the value
of the construction counter when it was built) and how many constructions
have happened. -/
structure ClientCache where
  handle : Option ℕ
  constructions : ℕ
  deriving DecidableEq, Repr

/-- The fresh cache at process start (`_object_storage_client = None`). -/
def ClientCache.init : ClientCache := { handle := none, constructions := 0 }

/-- One atomic accessor execution (`OCIClient.object_storage`,
`src/oci_client.py` lines 116-128): construct on `None`, else reuse.
Returns the new state and the handle handed to the caller. -/
def accessClient (st : ClientCache) : ClientCache × ℕ :=
  match st.handle with
  | some h => (st, h)
  | none => ({ handle := some st.constructions,
               constructions := st.constructions + 1 }, st.constructions)

/-- `OCIClient.close()`: clear the cached handle. -/
def closeClient (_st : ClientCache) : ClientCache :=
  { handle := none, constructions := (_st).constructions }

/-- Run a sequence of accessor executions (one per concurrent task, in
whatever order the scheduler serializes them), collecting the handles the
tasks receive. -/
def runAccesses : ℕ → ClientCache → ClientCache × List ℕ
  | 0, st => (st, [])
  | n + 1, st =>
    let (st', h) := accessClient st
    let (st'', hs) := runAccesses n st'
    (st'', h :: hs)

/-! ## Theorems -/

/-- Every classification branch stores the caught backend exception as
`original_error`. -/
theorem classify_original (e : OCIException) : (classify e).original = some e := by
  cases e with
  | serviceError st code msg =>
    by_cases h1 : st = 401 <;> by_cases h2 : st = 404 <;> by_cases h3 : st = 429 <;>
      by_cases h4 : st ≥ 500 <;> simp [classify, h1, h2, h3, h4]
  | connectTimeout msg => rfl
  | requestException msg => rfl
  | other msg => rfl

/-- Claim C2: call_api classifies every backend failure into exactly one
taxonomy error: service-error status 401 → Authentication, 404 →
ResourceNotFound, 429 → RateLimit, every other status (≥ 500 included) →
API; a connection timeout → Timeout; any other request/transport failure →
Network; and every classification preserves the original backend exception
as its cause. -/
theorem classify_taxonomy :
    (∀ (st : Int) (code msg : String),
      (classify (.serviceError st code msg)).kind =
        (if st = 401 then ErrKind.Authentication
         else if st = 404 then ErrKind.ResourceNotFound
         else if st = 429 then ErrKind.RateLimit
         else ErrKind.API))
    ∧ (∀ msg, (classify (.connectTimeout msg)).kind = ErrKind.Timeout)
    ∧ (∀ msg, (classify (.requestException msg)).kind = ErrKind.Network)
    ∧ (∀ e, (classify e).original = some e) := by
  refine ⟨?_, fun _ => rfl, fun _ => rfl, classify_original⟩
  intro st code msg
  by_cases h1 : st = 401 <;> by_cases h2 : st = 404 <;> by_cases h3 : st = 429 <;>
    by_cases h4 : st ≥ 500 <;> simp [classify, h1, h2, h3, h4]

/-- Claim C1: for a backend operation whose every invocation fails with a
retryable (Timeout/Network) classification, call_api makes exactly 3 total
attempts, sleeping the tenacity exponential wait between attempts — each
wait equal to min(10, max(2, multiplier·2^attempt)) seconds, non-decreasing
and capped at 10 — and finally raises the last classified error with the
original backend exception preserved as its cause; a backend operation
whose first invocation fails with a non-retryable classification is
attempted exactly once. -/
theorem call_api_retry_policy :
    (∀ (α : Type) (backend : ℕ → Except OCIException α),
      (∀ n, ∃ e, backend n = .error e ∧ retryable (classify e).kind = true) →
      (call_api backend).2.1 = 3
      ∧ (call_api backend).2.2 = [waitExponential 1 2 10 1, waitExponential 1 2 10 2]
      ∧ waitExponential 1 2 10 1 = min 10 (max 2 (1 * 2 ^ 1))
      ∧ waitExponential 1 2 10 2 = min 10 (max 2 (1 * 2 ^ 2))
      ∧ (call_api backend).2.2.Chain' (· ≤ ·)
      ∧ (∀ w ∈ (call_api backend).2.2, w ≤ 10)
      ∧ (∃ e, backend 2 = .error e ∧ (call_api backend).1 = .error (classify e)
          ∧ (classify e).original = some e))
    ∧ (∀ (α : Type) (backend : ℕ → Except OCIException α) (e : OCIException),
      backend 0 = .error e → retryable (classify e).kind = false →
      call_api backend = (.error (classify e), 1, [])) := by
  constructor
  · intro α backend h
    obtain ⟨e0, he0, hr0⟩ := h 0
    obtain ⟨e1, he1, hr1⟩ := h 1
    obtain ⟨e2, he2, hr2⟩ := h 2
    have hclassify2 := classify_original e2
    have hrun : call_api backend =
        (.error (classify e2), 3,
         [waitExponential 1 2 10 1, waitExponential 1 2 10 2]) := by
      simp [call_api, callApiGo, callAttempt, he0, he1, he2, hr0, hr1]
    refine ⟨by rw [hrun], by rw [hrun], by norm_num [waitExponential],
      by norm_num [waitExponential], ?_, ?_, e2, he2, by rw [hrun], hclassify2⟩
    · rw [hrun]
      norm_num [waitExponential]
    · rw [hrun]
      intro w hw
      simp only [List.mem_cons, List.not_mem_nil, or_false] at hw
      rcases hw with h | h <;> (rw [h]; norm_num [waitExponential])
  · intro α backend e he hr
    simp [call_api, callApiGo, callAttempt, he, hr]

/-- Witness for C1: a backend that always raises a connection timeout is
attempted 3 times; a backend that raises a 404 service error is attempted
once. -/
theorem call_api_retry_policy_witness :
    (call_api (α := Unit) (fun _ => .error (.connectTimeout "t"))).2.1 = 3
    ∧ call_api (α := Unit) (fun _ => .error (.serviceError 404 "NotFound" "missing"))
        = (.error (classify (.serviceError 404 "NotFound" "missing")), 1, []) :=
  ⟨(call_api_retry_policy.1 Unit (fun _ => .error (.connectTimeout "t"))
      (fun _ => ⟨.connectTimeout "t", rfl, rfl⟩)).1,
   call_api_retry_policy.2 Unit (fun _ => .error (.serviceError 404 "NotFound" "missing"))
      (.serviceError 404 "NotFound" "missing") rfl (by decide)⟩

/-- Claim C3: the required-field validator succeeds exactly when every
required field is present and non-null, and on failure raises one
Validation error whose details list every absent-or-null field; dispatching
get_bucket_details with empty arguments yields that Validation error with
missing_fields = `["bucket_name"]` and performs no remote call. -/
theorem validate_required_fields_spec :
    (∀ (data : Args) (required : List String),
      (validate_required_fields data required = .ok () ↔
        ∀ f ∈ required, fieldPresent data f)
      ∧ (∀ err, validate_required_fields data required = .error err →
          err.kind = ErrKind.Validation
          ∧ err.message = "Missing required fields"
          ∧ err.details = [("missing_fields", DV.list (missingFields data required))]
          ∧ ∀ f, f ∈ missingFields data required ↔
              (f ∈ required ∧ ¬ fieldPresent data f)))
    ∧ (∀ remote, getBucketDetailsDispatch [] remote =
        (.error { kind := .Validation, message := "Missing required fields",
                  details := [("missing_fields", .list ["bucket_name"])],
                  original := none }, 0)) := by
  constructor
  · intro data required
    constructor
    · constructor
      · intro h f hf
        by_contra hnp
        have hmem : f ∈ missingFields data required :=
          List.mem_filter.mpr ⟨hf, by simp [hnp]⟩
        rw [validate_required_fields] at h
        split at h
        · next hnil => simp [hnil] at hmem
        · exact absurd h (by simp)
      · intro h
        have hnil : missingFields data required = [] := by
          rw [missingFields, List.filter_eq_nil_iff]
          intro f hf
          simp [h f hf]
        simp [validate_required_fields, hnil]
    · intro err herr
      rw [validate_required_fields] at herr
      split at herr
      · exact absurd herr (by simp)
      · next hne =>
        injection herr with herr
        refine ⟨by rw [← herr], by rw [← herr], by rw [← herr], ?_⟩
        intro f
        constructor
        · intro hf
          obtain ⟨h1, h2⟩ := List.mem_filter.mp hf
          exact ⟨h1, by simpa using h2⟩
        · intro ⟨h1, h2⟩
          exact List.mem_filter.mpr ⟨h1, by simpa using h2⟩
  · intro remote
    rfl

/-- Witness for C3: instantiated at a map whose second required field is
null — both fields are reported missing, not just the first. -/
theorem validate_required_fields_witness :
    (validate_required_fields [("b", JVal.null)] ["a", "b"] = .ok () ↔
      ∀ f ∈ ["a", "b"], fieldPresent [("b", JVal.null)] f)
    ∧ ("b" ∈ missingFields [("b", JVal.null)] ["a", "b"] ↔
        ("b" ∈ ["a", "b"] ∧ ¬ fieldPresent [("b", JVal.null)] "b"))
    ∧ (∀ remote, getBucketDetailsDispatch [] remote =
        (.error { kind := .Validation, message := "Missing required fields",
                  details := [("missing_fields", .list ["bucket_name"])],
                  original := none }, 0)) :=
  ⟨(validate_required_fields_spec.1 [("b", JVal.null)] ["a", "b"]).1,
   ((validate_required_fields_spec.1 [("b", JVal.null)] ["a", "b"]).2
      { kind := .Validation, message := "Missing required fields",
        details := [("missing_fields", .list ["a", "b"])], original := none }
      (by decide)).2.2.2 "b",
   validate_required_fields_spec.2⟩

/-- Handles are served from the cache without construction once one is
stored. -/
theorem runAccesses_cached (n : ℕ) (h : ℕ) (st : ClientCache)
    (hst : st.handle = some h) : runAccesses n st = (st, List.replicate n h) := by
  induction n with
  | zero => rfl
  | succ m ih => simp [runAccesses, accessClient, hst, ih, List.replicate_succ]

/-- Claim C6: under N ≥ 1 first-time accesses to one backend service —
each accessor execution being one atomic step of the cooperative
scheduler, in whatever order they are serialized — exactly one
construction occurs, every access receives that same handle, and any later
access on a populated cache reuses the stored handle without constructing
(until `close` clears it). -/
theorem client_single_flight (n : ℕ) (hn : 1 ≤ n) :
    (runAccesses n ClientCache.init).1.constructions = 1
    ∧ (runAccesses n ClientCache.init).2 = List.replicate n 0
    ∧ (runAccesses n ClientCache.init).1.handle = some 0
    ∧ (∀ st h, st.handle = some h → accessClient st = (st, h)) := by
  obtain ⟨m, rfl⟩ : ∃ m, n = m + 1 := ⟨n - 1, (Nat.succ_pred_eq_of_pos hn).symm⟩
  have hstep : runAccesses (m + 1) ClientCache.init =
      ({ handle := some 0, constructions := 1 }, List.replicate (m + 1) 0) := by
    have := runAccesses_cached m 0 { handle := some 0, constructions := 1 } rfl
    simp [runAccesses, accessClient, ClientCache.init, this, List.replicate_succ]
  refine ⟨by rw [hstep], by rw [hstep], by rw [hstep], ?_⟩
  intro st h hst
  simp [accessClient, hst]

/-- Witness for C6: three concurrent first accesses construct once and all
see handle 0. -/
theorem client_single_flight_witness :
    (runAccesses 3 ClientCache.init).1.constructions = 1
    ∧ (runAccesses 3 ClientCache.init).2 = List.replicate 3 0
    ∧ (runAccesses 3 ClientCache.init).1.handle = some 0
    ∧ (∀ st h, st.handle = some h → accessClient st = (st, h)) :=
  client_single_flight 3 (by decide)

/-- Counterexample to C4 as stated: an error envelope built by
format_error_response carries no execution_time_ms at all, so the
metadata of an envelope produced by the response builders does not always
contain execution_time_ms. -/
theorem error_envelope_lacks_execution_time :
    (format_error_response
        (.aidp { kind := .Validation, message := "m", details := [], original := none })
        (some "req_1") false "ts").metadata.execution_time_ms = none := by
  decide

/-- Claim C4 (amended): every envelope from the two builders has exactly
one of data (success = true) / error (success = false); its metadata
always carries a timestamp; it carries the request_id exactly when a
non-empty one is supplied; execution_time_ms appears only in success
envelopes and only when a measurement is supplied, in which case it is
rounded to 2 decimal places and non-negative for a non-negative
measurement; error envelopes never carry execution_time_ms. -/
theorem envelope_builders_spec :
    (∀ (d : JVal) (rid : Option String) (ems : Option ℚ) (now : String),
      (format_success_response d rid ems now).success = true
      ∧ (format_success_response d rid ems now).data = some d
      ∧ (format_success_response d rid ems now).error = none
      ∧ (format_success_response d rid ems now).metadata.timestamp = some now
      ∧ (format_success_response d rid ems now).metadata.request_id = truthyStr rid
      ∧ (format_success_response d rid ems now).metadata.execution_time_ms
          = ems.map round2)
    ∧ (∀ (err : PyExc) (rid : Option String) (tb : Bool) (now : String),
      (format_error_response err rid tb now).success = false
      ∧ (format_error_response err rid tb now).data = none
      ∧ (format_error_response err rid tb now).error.isSome = true
      ∧ (format_error_response err rid tb now).metadata.timestamp = some now
      ∧ (format_error_response err rid tb now).metadata.request_id = truthyStr rid
      ∧ (format_error_response err rid tb now).metadata.execution_time_ms = none)
    ∧ (∀ q : ℚ, 0 ≤ q → 0 ≤ round2 q)
    ∧ (∀ q : ℚ, ∃ n : ℤ, round2 q * 100 = n) := by
  refine ⟨fun d rid ems now => ⟨rfl, rfl, rfl, rfl, rfl, rfl⟩,
    fun err rid tb now => ⟨rfl, rfl, rfl, rfl, rfl, rfl⟩, ?_, ?_⟩
  · intro q hq
    rw [round2]
    have h1 : (0 : ℤ) ≤ round (q * 100) := by
      rw [round_eq]
      calc (0 : ℤ) = ⌊(1 : ℚ) / 2⌋ := by norm_num
        _ ≤ ⌊q * 100 + 1 / 2⌋ := Int.floor_le_floor (by linarith)
    exact div_nonneg (by exact_mod_cast h1) (by norm_num)
  · intro q
    exact ⟨round (q * 100), by rw [round2]; field_simp⟩

/-- Witness for the amended C4: concrete envelopes from both builders,
with a non-negative rounded execution time on the success side and no
execution time on the error side. -/
theorem envelope_builders_spec_witness :
    (format_success_response (JVal.str "ok") (some "req_7") (some (123456 / 1000)) "ts").metadata.execution_time_ms
      = (some (123456 / 1000) : Option ℚ).map round2
    ∧ (format_error_response (.other "ValueError" "boom") (some "req_7") true "ts").metadata.execution_time_ms
      = none
    ∧ 0 ≤ round2 (123456 / 1000) :=
  ⟨(envelope_builders_spec.1 (JVal.str "ok") (some "req_7") (some (123456 / 1000)) "ts").2.2.2.2.2,
   (envelope_builders_spec.2.1 (.other "ValueError" "boom") (some "req_7") true "ts").2.2.2.2.2,
   envelope_builders_spec.2.2.1 (123456 / 1000) (by norm_num)⟩

/-- Counterexample to C5 as stated: dispatching an unregistered tool name
yields an envelope whose error type is "UnexpectedError" (the ValueError
raised by the routing chain falls into the generic exception branch), not
"Validation"; no handler is invoked. -/
theorem unknown_tool_counterexample :
    (handle_call_tool "zzz_no_such_tool" [] (fun _ _ _ => .ok JVal.null)
        "ts" "req_0" 5 false "tb")
      = (.err { success := false, data := none,
                error := some { type := "UnexpectedError",
                                message := "Unknown tool: zzz_no_such_tool",
                                details := none, original_error := none,
                                traceback := some none },
                metadata := { timestamp := none, request_id := some "req_0",
                              execution_time_ms := some (round2 5) } }, 0)
    ∧ "UnexpectedError" ≠ "Validation" := by
  constructor
  · rfl
  · decide

/-- Claim C5 (amended): for every invocation whose tool name no routing
prefix matches, dispatch invokes no handler and produces an envelope with
success = false whose error has type "UnexpectedError" and message
"Unknown tool: name". -/
theorem unknown_tool_dispatch (name : String) (args : Args)
    (handlers : ModuleKind → String → Args → Except AIDPError JVal)
    (now reqId : String) (execMs : ℚ) (debug : Bool) (tb : String)
    (h : routeTool name = none) :
    (handle_call_tool name args handlers now reqId execMs debug tb).2 = 0
    ∧ (handle_call_tool name args handlers now reqId execMs debug tb).1 =
        .err { success := false, data := none,
               error := some { type := "UnexpectedError",
                               message := "Unknown tool: " ++ name,
                               details := none, original_error := none,
                               traceback := some (if debug then some tb else none) },
               metadata := { timestamp := none, request_id := some reqId,
                             execution_time_ms := some (round2 execMs) } } := by
  rw [handle_call_tool, h]
  exact ⟨rfl, rfl⟩

/-- Witness for the amended C5: concrete dispatch of an unroutable name. -/
theorem unknown_tool_dispatch_witness :
    (handle_call_tool "zzz_no_such_tool" [] (fun _ _ _ => .ok JVal.null)
        "ts" "req_0" 5 false "tb").2 = 0
    ∧ (handle_call_tool "zzz_no_such_tool" [] (fun _ _ _ => .ok JVal.null)
        "ts" "req_0" 5 false "tb").1 =
        .err { success := false, data := none,
               error := some { type := "UnexpectedError",
                               message := "Unknown tool: " ++ "zzz_no_such_tool",
                               details := none, original_error := none,
                               traceback := some (if false then some "tb" else none) },
               metadata := { timestamp := none, request_id := some "req_0",
                             execution_time_ms := some (round2 5) } } :=
  unknown_tool_dispatch "zzz_no_such_tool" [] (fun _ _ _ => .ok JVal.null)
    "ts" "req_0" 5 false "tb" (by decide)

/-- Counterexample to C7 as stated: a copy-step failure and a delete-step
failure with the same underlying error propagate identical errors out of
move_object, so the propagated error does not report which step failed
(the two runs differ only in whether the delete step was attempted). -/
theorem move_object_counterexample :
    (move_object
        (.error { kind := .API, message := "boom", details := [], original := none })
        (.ok ())).1
      = (move_object (.ok ())
          (.error { kind := .API, message := "boom", details := [], original := none })).1
    ∧ (move_object
        (.error { kind := .API, message := "boom", details := [], original := none })
        (.ok ())).2 = false
    ∧ (move_object (.ok ())
        (.error { kind := .API, message := "boom", details := [], original := none })).2
        = true := by
  decide

/-- Claim C7 (amended): when either step fails, move_object propagates
that step's error unchanged — never the success result "Object moved
successfully" — and when the copy step fails the delete step is never
attempted; the propagated error itself does not name the failed step. -/
theorem move_object_failure_propagation
    (copyStep deleteStep : Except AIDPError Unit) :
    (∀ e, copyStep = .error e →
      move_object copyStep deleteStep = (.error e, false))
    ∧ (copyStep = .ok () → ∀ e, deleteStep = .error e →
      move_object copyStep deleteStep = (.error e, true))
    ∧ (∀ s, (move_object copyStep deleteStep).1 = .ok s →
      s = "Object moved successfully" ∧ copyStep = .ok () ∧ deleteStep = .ok ()) := by
  cases copyStep with
  | error e => simp [move_object]
  | ok u =>
    cases u
    cases deleteStep with
    | error e => simp [move_object]
    | ok u => cases u; simp [move_object]

/-- Witness for the amended C7: a concrete copy failure propagates with no
delete attempt. -/
theorem move_object_failure_propagation_witness :
    move_object
      (.error { kind := .API, message := "boom", details := [], original := none })
      (.ok ())
    = (.error { kind := .API, message := "boom", details := [], original := none },
       false) :=
  (move_object_failure_propagation
      (.error { kind := .API, message := "boom", details := [], original := none })
      (.ok ())).1
    { kind := .API, message := "boom", details := [], original := none } rfl

/-- `startsWithPeriod` reads the head character. -/
theorem startsWithPeriod_iff (s : String) :
    startsWithPeriod s = true ↔ s.data.head? = some '.' := by
  rw [startsWithPeriod]
  cases s.data <;> simp

/-- `endsWithPeriod` reads the last character. -/
theorem endsWithPeriod_iff (s : String) :
    endsWithPeriod s = true ↔ s.data.getLast? = some '.' := by
  rw [endsWithPeriod]
  cases h : s.data.getLast? <;> simp

/-- The recursive scan `hasConsecutivePeriods` finds exactly the
occurrences of the two-character substring "..". -/
theorem hasConsecutivePeriods_iff (l : List Char) :
    hasConsecutivePeriods l = true ↔ ∃ u v, l = u ++ '.' :: '.' :: v := by
  induction l with
  | nil =>
    rw [hasConsecutivePeriods]
    simp only [Bool.false_eq_true, false_iff]
    rintro ⟨u, v, h⟩
    cases u <;> simp at h
  | cons a rest ih =>
    cases rest with
    | nil =>
      rw [hasConsecutivePeriods]
      simp only [Bool.false_eq_true, false_iff]
      rintro ⟨u, v, h⟩
      cases u with
      | nil => simp at h
      | cons c u' =>
        simp only [List.cons_append, List.cons.injEq] at h
        exact absurd h.2 (by cases u' <;> simp)
    | cons b rest2 =>
      rw [hasConsecutivePeriods]
      constructor
      · intro h
        simp only [Bool.or_eq_true, Bool.and_eq_true, decide_eq_true_eq] at h
        rcases h with ⟨ha, hb⟩ | h
        · exact ⟨[], rest2, by simp [ha, hb]⟩
        · obtain ⟨u, v, huv⟩ := ih.mp h
          exact ⟨a :: u, v, by simp [huv]⟩
      · rintro ⟨u, v, huv⟩
        cases u with
        | nil =>
          simp only [List.nil_append, List.cons.injEq] at huv
          obtain ⟨rfl, rfl, -⟩ := huv
          simp
        | cons c u' =>
          simp only [List.cons_append, List.cons.injEq] at huv
          simp only [Bool.or_eq_true]
          exact Or.inr (ih.mpr ⟨u', v, huv.2⟩)

/-- Counterexample to C8 as stated: the period-edge failure carries an
empty details map (only a message), so not every bucket-name failure
carries a details map naming the offending field, its value, and the
violated constraint; the message for ".bad." is nonetheless exactly the
one the claim cites. -/
theorem bucket_name_period_no_details :
    validate_bucket_name ".bad." =
      .error { kind := .Validation,
               message := "Bucket name cannot start or end with a period",
               details := [], original := none } := by
  decide

/-- Claim C8 (amended): the bucket-name validator fails exactly when the
name is empty, longer than 256 characters, starts or ends with a period,
contains consecutive periods, or contains a character outside
alphanumerics, hyphen, underscore and period; every failure is a
Validation error, the length failure carrying a details map with the
length, the character failure one with the name and the allowed character
set, and the remaining failures only a message; validating ".bad." fails
with the message "Bucket name cannot start or end with a period". -/
theorem validate_bucket_name_spec (s : String) :
    (validate_bucket_name s = .ok () ↔
      (s ≠ "" ∧ s.length ≤ 256 ∧ s.data.head? ≠ some '.' ∧ s.data.getLast? ≠ some '.'
       ∧ ¬(∃ u v, s.data = u ++ '.' :: '.' :: v) ∧ ∀ c ∈ s.data, bucketChar c))
    ∧ (∀ err, validate_bucket_name s = .error err →
        err.kind = ErrKind.Validation ∧ err.original = none
        ∧ ((err.message = "Bucket name cannot be empty" ∧ err.details = [])
          ∨ (err.message = "Bucket name too long (max 256 characters)"
              ∧ err.details = [("length", .i s.length)])
          ∨ (err.message = "Bucket name cannot start or end with a period"
              ∧ err.details = [])
          ∨ (err.message = "Bucket name cannot contain consecutive periods"
              ∧ err.details = [])
          ∨ (err.message = "Bucket name contains invalid characters"
              ∧ err.details = [("bucket_name", .s s),
                  ("allowed_characters",
                   .s "alphanumeric, hyphen, underscore, period")]))) := by
  constructor
  · rw [validate_bucket_name]
    split_ifs with h1 h2 h3 h4 h5
    · exact ⟨fun h => (nomatch h), fun ⟨hne, _⟩ => absurd h1 hne⟩
    · refine ⟨fun h => (nomatch h), ?_⟩
      rintro ⟨-, hle, -⟩
      omega
    · refine ⟨fun h => (nomatch h), ?_⟩
      rintro ⟨-, -, hh, hl, -, -⟩
      simp only [Bool.or_eq_true] at h3
      rcases h3 with h | h
      · exact hh ((startsWithPeriod_iff s).mp h)
      · exact hl ((endsWithPeriod_iff s).mp h)
    · refine ⟨fun h => (nomatch h), ?_⟩
      rintro ⟨-, -, -, -, hni, -⟩
      exact hni ((hasConsecutivePeriods_iff s.data).mp h4)
    · refine ⟨fun h => (nomatch h), ?_⟩
      rintro ⟨-, -, -, -, -, hall⟩
      have hat : s.data.all bucketChar = true :=
        List.all_eq_true.mpr fun c hc => hall c hc
      simp [hat] at h5
    · refine ⟨fun _ => ⟨h1, by omega, ?_, ?_, ?_, ?_⟩, fun _ => rfl⟩
      · intro hh
        refine h3 ?_
        simp only [Bool.or_eq_true]
        exact Or.inl ((startsWithPeriod_iff s).mpr hh)
      · intro hl
        refine h3 ?_
        simp only [Bool.or_eq_true]
        exact Or.inr ((endsWithPeriod_iff s).mpr hl)
      · intro hex
        exact h4 ((hasConsecutivePeriods_iff s.data).mpr hex)
      · intro c hc
        have hat : s.data.all bucketChar = true := by
          revert h5
          cases s.data.all bucketChar <;> simp
        exact List.all_eq_true.mp hat c hc
  · rw [validate_bucket_name]
    split_ifs with h1 h2 h3 h4 h5 <;> intro err herr
    · injection herr with h
      subst h
      exact ⟨rfl, rfl, Or.inl ⟨rfl, rfl⟩⟩
    · injection herr with h
      subst h
      exact ⟨rfl, rfl, Or.inr (Or.inl ⟨rfl, rfl⟩)⟩
    · injection herr with h
      subst h
      exact ⟨rfl, rfl, Or.inr (Or.inr (Or.inl ⟨rfl, rfl⟩))⟩
    · injection herr with h
      subst h
      exact ⟨rfl, rfl, Or.inr (Or.inr (Or.inr (Or.inl ⟨rfl, rfl⟩)))⟩
    · injection herr with h
      subst h
      exact ⟨rfl, rfl, Or.inr (Or.inr (Or.inr (Or.inr ⟨rfl, rfl⟩)))⟩
    · exact nomatch herr

/-- Witness for the amended C8: the ".bad." failure is a Validation
error. -/
theorem validate_bucket_name_spec_witness :
    ({ kind := ErrKind.Validation,
       message := "Bucket name cannot start or end with a period",
       details := [], original := none } : AIDPError).kind = ErrKind.Validation :=
  ((validate_bucket_name_spec ".bad.").2
    { kind := .Validation,
      message := "Bucket name cannot start or end with a period",
      details := [], original := none } (by decide)).1

/-- Counterexample to C9 as stated: two invocations with distinct start
times in the same wall-clock millisecond receive the same request id, so
distinct invocations do not always receive distinct ids (the id is derived
from `time.time()`, not from a monotonic counter). -/
theorem request_id_collision :
    requestId 0 = requestId (1 / 2000) ∧ (0 : ℚ) ≠ 1 / 2000 := by
  constructor
  · norm_num [requestId, requestIdMillis]
  · norm_num

/-- Claim C9 (amended): the request id is req_ followed by the wall-clock
start time truncated to whole milliseconds; ids are non-decreasing in the
start time, start times at least one millisecond apart give strictly
increasing (hence distinct) ids, and invocations whose start times fall in
the same millisecond share an id. -/
theorem request_id_granularity :
    (∀ t₁ t₂ : ℚ, t₁ ≤ t₂ → requestIdMillis t₁ ≤ requestIdMillis t₂)
    ∧ (∀ t₁ t₂ : ℚ, t₁ + 1 / 1000 ≤ t₂ → requestIdMillis t₁ < requestIdMillis t₂)
    ∧ (∀ t₁ t₂ : ℚ, requestIdMillis t₁ = requestIdMillis t₂ →
        requestId t₁ = requestId t₂) := by
  refine ⟨?_, ?_, ?_⟩
  · intro t₁ t₂ h
    rw [requestIdMillis, requestIdMillis]
    exact Int.floor_le_floor (by linarith)
  · intro t₁ t₂ h
    rw [requestIdMillis, requestIdMillis, Int.lt_iff_add_one_le]
    calc ⌊t₁ * 1000⌋ + 1 = ⌊t₁ * 1000 + 1⌋ := (Int.floor_add_one _).symm
      _ ≤ ⌊t₂ * 1000⌋ := Int.floor_le_floor (by linarith)
  · intro t₁ t₂ h
    rw [requestId, requestId, h]

/-- Witness for the amended C9: two start times one second apart give
ordered ids. -/
theorem request_id_granularity_witness :
    requestIdMillis 0 < requestIdMillis 1 :=
  request_id_granularity.2.1 0 1 (by norm_num)

/-- Claim C10: for a non-taxonomy exception the error formatter reports
the exception's class name and string form and never attaches details or
original_error, whatever the verbose flag; for a taxonomy error,
original_error is attached exactly when the verbose flag is set and a
wrapped cause exists. -/
theorem format_error_verbose_spec :
    (∀ (cls msg : String) (rid : Option String) (tb : Bool) (now : String),
      (format_error_response (.other cls msg) rid tb now).error =
        some { type := cls, message := msg, details := none,
               original_error := none, traceback := none })
    ∧ (∀ (e : AIDPError) (rid : Option String) (tb : Bool) (now : String),
        ∃ ed, (format_error_response (.aidp e) rid tb now).error = some ed
          ∧ ed.type = e.kind.className ∧ ed.message = e.message
          ∧ (ed.original_error.isSome = true ↔ (tb = true ∧ e.original.isSome = true))
          ∧ (∀ orig, e.original = some orig → tb = true →
              ed.original_error = some orig.toStr)) := by
  constructor
  · intro cls msg rid tb now
    rfl
  · intro e rid tb now
    refine ⟨_, rfl, rfl, rfl, ?_, ?_⟩
    · cases ho : e.original <;> cases tb <;> simp [format_error_response, ho]
    · intro orig ho htb
      subst htb
      simp [format_error_response, ho]

/-- Witness for C10: a plain ValueError is reported by class name and
message with no details and no original_error even in verbose mode. -/
theorem format_error_verbose_spec_witness :
    (format_error_response (.other "ValueError" "boom") (some "req_9") true "ts").error =
      some { type := "ValueError", message := "boom", details := none,
             original_error := none, traceback := none } :=
  format_error_verbose_spec.1 "ValueError" "boom" (some "req_9") true "ts"

end AIDP
